import Mathlib

/-!
Verification development for the `whatsapp-cloud-sdk` Python library.

This file shallowly embeds the JSON mapping core of the library:
the inbound webhook decoder (`Message.de_json` in `_files/message.py`),
the typed payload objects (`_files/FileObject.py`, `image.py`, `sticker.py`,
`Reaction.py`, `location.py`, `_files/contact.py`), the outbound formatters
(`_formaters/message_formatter.py`), the pydantic request validators
(`_validators/messages.py`) and the send pipeline of `bot.py`.

Python values are modelled with `Option`/plain Lean types; Python exceptions
are modelled with `Except PyErr`.  Each definition carries a comment naming
the source function it embeds.
-/

/-- The Python exception kinds that the embedded code can raise. -/
inductive PyErr where
  | typeError
  | valueError
  | indexError
  | keyError
  | attributeError
  | validationError
deriving DecidableEq, Repr

/-- True when an `Except` computation did not raise. -/
def exOk {α : Type} : Except PyErr α → Bool
  | .ok _ => true
  | .error _ => false

/-! ## `_utils/types.py` : the `MessageTypes` enum -/

/-- The members of the Python enum `MessageTypes` (`_utils/types.py`).
The member names are the uppercase identifiers `IMAGE`, `AUDIO`, `TEXT`,
`REACTION`, `STICKER`, `LOCATION`, `UNKNOWN`. -/
inductive MessageTypes where
  | IMAGE
  | AUDIO'
  | TEXT
  | REACTION
  | STICKER
  | LOCATION
  | UNKNOWN
deriving DecidableEq, Repr

/-- The `value` of each enum member: the lowercase wire string. -/
def MessageTypes.value : MessageTypes → String
  | .IMAGE => "image"
  | .AUDIO' => "audio"
  | .TEXT => "text"
  | .REACTION => "reaction"
  | .STICKER => "sticker"
  | .LOCATION => "location"
  | .UNKNOWN => "unknown"

/-- The keys of `MessageTypes.__members__`: the member NAMES (not the values).
Python `Enum.__members__` maps member names to members, so membership tests
against it compare with the uppercase identifiers. -/
def memberNames : List String :=
  ["IMAGE", "AUDIO", "TEXT", "REACTION", "STICKER", "LOCATION", "UNKNOWN"]

/-- Lookup of an attribute / subscript on the `MessageTypes` class:
`MessageTypes[name]` and `MessageTypes.name` both resolve member NAMES only.
There is no member (or alias) called `unknown`; the member is `UNKNOWN`. -/
def memberByName? : String → Option MessageTypes
  | "IMAGE" => some .IMAGE
  | "AUDIO" => some .AUDIO'
  | "TEXT" => some .TEXT
  | "REACTION" => some .REACTION
  | "STICKER" => some .STICKER
  | "LOCATION" => some .LOCATION
  | "UNKNOWN" => some .UNKNOWN
  | _ => none

/-- Embeds `_files/message.py` lines 253-258:
```
message_type = messages.get("type")
if message_type and message_type in MessageTypes.__members__:
    output_dict["_type"] = MessageTypes[message_type]
else:
    output_dict["_type"] = MessageTypes.unknown
```
The `in`-test is against the member names; on its failure the attribute
access `MessageTypes.unknown` is attempted, which raises `AttributeError`
because the member is named `UNKNOWN`. -/
def resolveType (t : Option String) : Except PyErr MessageTypes :=
  if (match t with | some s => memberNames.contains s | none => false) then
    match t with
    | some s =>
      match memberByName? s with
      | some m => Except.ok m
      | none => Except.error .keyError
    | none => Except.error .keyError
  else
    match memberByName? "unknown" with
    | some m => Except.ok m
    | none => Except.error .attributeError

/-! ## Timestamp handling (`_files/message.py` lines 245-251) -/

/-- ASCII whitespace as stripped by Python `int()`. -/
def isPySpace (c : Char) : Bool :=
  c = ' ' || c = '\t' || c = '\n' || c = '\r'

/-- Drop leading whitespace from a character list. -/
def dropLeadingSpaces : List Char → List Char
  | [] => []
  | c :: cs => if isPySpace c then dropLeadingSpaces cs else c :: cs

/-- Strip whitespace from both ends of a character list. -/
def trimBoth (cs : List Char) : List Char :=
  dropLeadingSpaces ((dropLeadingSpaces cs.reverse).reverse)

/-- ASCII decimal digit test. -/
def isAsciiDigit (c : Char) : Bool :=
  decide ('0' ≤ c) && decide (c ≤ '9')

/-- Fold a digit run into a number; any non-digit makes the parse fail. -/
def parseDigitsAcc : List Char → Nat → Option Nat
  | [], acc => some acc
  | c :: cs, acc =>
    if isAsciiDigit c then parseDigitsAcc cs (10 * acc + (c.toNat - 48)) else none

/-- A non-empty all-digit run. -/
def parseDigitsNE : List Char → Option Nat
  | [] => none
  | c :: cs => parseDigitsAcc (c :: cs) 0

/-- An optional sign followed by a non-empty digit run. -/
def parseSignedDigits : List Char → Option Int
  | [] => none
  | c :: cs =>
    if c = '-' then (parseDigitsNE cs).map (fun n => -(n : Int))
    else if c = '+' then (parseDigitsNE cs).map (fun n => (n : Int))
    else (parseDigitsNE (c :: cs)).map (fun n => (n : Int))

/-- Embeds Python `int(s)` on a string: optional surrounding whitespace,
an optional sign, then decimal digits.  (Underscore separators and
non-ASCII digits, which real `int()` also accepts, are not modelled; no
claim exercises them.)  Returns `none` where `int()` raises `ValueError`. -/
def pyInt? (s : String) : Option Int :=
  parseSignedDigits (trimBoth s.data)

/-- Models `datetime.datetime.fromtimestamp`, with a date-time represented by its
epoch seconds.  Modelled as total (platform range errors for absurd
timestamps are out of scope; no claim exercises them). -/
def pyFromtimestamp (n : Int) : Int := n

/-- The value ending up in the `time` slot of a `Message`: a parsed
date-time, the raw wire string kept after a failed conversion, or `None`. -/
inductive TimeVal where
  | dt (epochSeconds : Int)
  | raw (s : String)
  | noneT
deriving DecidableEq, Repr

/-- Embeds `_files/message.py` lines 245-251:
```
time = messages.get("timestamp")
try:
    time = int(time)
    time = datetime.datetime.fromtimestamp(time)
except ValueError:
    pass
```
For a string that `int()` rejects, `ValueError` is caught and the raw string
is kept.  For an absent field, `time` is `None` and `int(None)` raises
`TypeError`, which the `except ValueError` clause does NOT catch. -/
def parseWireTimestamp : Option String → Except PyErr TimeVal
  | none => Except.error .typeError
  | some s =>
    match pyInt? s with
    | some n => Except.ok (.dt (pyFromtimestamp n))
    | none => Except.ok (.raw s)

/-! ## Payload objects -/

/-- Models `_files/Reaction.py`: `__slots__ = ("emoji", "reaction_id")`,
`__init__(self, emoji, reaction_id)`. -/
structure Reaction where
  emoji : String
  reaction_id : String
deriving DecidableEq, Repr

/-- Models `_files/image.py`: `__slots__ = ("caption", "mime_type", "id", "sha256")`,
`__init__(self, caption, mime_type, sha256, _id)` with `self.id = _id`. -/
structure Image where
  caption : String
  mime_type : String
  id : String
  sha256 : String
deriving DecidableEq, Repr

/-- Models `_files/sticker.py`: `__slots__ = ("mime_type", "sha256", "id")`,
`__init__(self, mime_type, sha256, id)`. -/
structure Sticker where
  mime_type : String
  sha256 : String
  id : String
deriving DecidableEq, Repr

/-- Models `_files/location.py`: `__slots__ = ("latitude", "longitude", "name",
"address")`, `__init__(self, latitude, longitude, name, address)`. -/
structure Location where
  latitude : String
  longitude : String
  name : String
  address : String
deriving DecidableEq, Repr

/-- Models `File.to_dict` (`_files/FileObject.py` lines 40-50) specialised to
`Image`: one entry per slot, in slot order. -/
def Image.to_dict (x : Image) : List (String × String) :=
  [("caption", x.caption), ("mime_type", x.mime_type), ("id", x.id), ("sha256", x.sha256)]

/-- Models `File.to_dict` specialised to `Sticker`, in slot order. -/
def Sticker.to_dict (x : Sticker) : List (String × String) :=
  [("mime_type", x.mime_type), ("sha256", x.sha256), ("id", x.id)]

/-- Models `File.to_dict` specialised to `Reaction`, in slot order. -/
def Reaction.to_dict (x : Reaction) : List (String × String) :=
  [("emoji", x.emoji), ("reaction_id", x.reaction_id)]

/-- Models `File.to_dict` specialised to `Location`, in slot order. -/
def Location.to_dict (x : Location) : List (String × String) :=
  [("latitude", x.latitude), ("longitude", x.longitude), ("name", x.name), ("address", x.address)]

/-- Python call `Image(**kw)` against
`def __init__(self, caption, mime_type, sha256, _id)`:
an unexpected keyword or a missing required parameter raises `TypeError`. -/
def Image.fromKwargs (kw : List (String × String)) : Except PyErr Image :=
  if kw.any (fun kv => !(["caption", "mime_type", "sha256", "_id"].contains kv.1)) then
    Except.error .typeError
  else
    match kw.lookup "caption", kw.lookup "mime_type", kw.lookup "sha256", kw.lookup "_id" with
    | some c, some m, some s, some i => Except.ok ⟨c, m, i, s⟩
    | _, _, _, _ => Except.error .typeError

/-- Python call `Sticker(**kw)` against
`def __init__(self, mime_type, sha256, id)`. -/
def Sticker.fromKwargs (kw : List (String × String)) : Except PyErr Sticker :=
  if kw.any (fun kv => !(["mime_type", "sha256", "id"].contains kv.1)) then
    Except.error .typeError
  else
    match kw.lookup "mime_type", kw.lookup "sha256", kw.lookup "id" with
    | some m, some s, some i => Except.ok ⟨m, s, i⟩
    | _, _, _ => Except.error .typeError

/-- Python call `Reaction(**kw)` against
`def __init__(self, emoji, reaction_id)`. -/
def Reaction.fromKwargs (kw : List (String × String)) : Except PyErr Reaction :=
  if kw.any (fun kv => !(["emoji", "reaction_id"].contains kv.1)) then
    Except.error .typeError
  else
    match kw.lookup "emoji", kw.lookup "reaction_id" with
    | some e, some r => Except.ok ⟨e, r⟩
    | _, _ => Except.error .typeError

/-- Python call `Location(**kw)` against
`def __init__(self, latitude, longitude, name, address)`. -/
def Location.fromKwargs (kw : List (String × String)) : Except PyErr Location :=
  if kw.any (fun kv => !(["latitude", "longitude", "name", "address"].contains kv.1)) then
    Except.error .typeError
  else
    match kw.lookup "latitude", kw.lookup "longitude", kw.lookup "name", kw.lookup "address" with
    | some la, some lo, some n, some a => Except.ok ⟨la, lo, n, a⟩
    | _, _, _, _ => Except.error .typeError

/-! ## The inbound `Message` and `Message.de_json` -/

/-- The `Message` object (`_files/message.py`).  One field per `__slots__`
entry except the private `__bot` reference, whose (opaque) value is
irrelevant to every claim; its storage is modelled in `Message.attrTable`.
`business_id` and `phone_number_id` are annotated `Optional[int]` in the
source, `display_phone_number` `Optional[str]`. -/
structure Message where
  business_id : Option Int
  display_phone_number : Option String
  phone_number_id : Option Int
  from_user : Option String
  id : Option String
  time : TimeVal
  text : Option String
  type : MessageTypes
  reaction : Option Reaction
  image : Option Image
  sticker : Option Sticker
  location : Option Location
deriving DecidableEq, Repr

/-- The wire `text` sub-dict of a message record: `{"body": ...}`. -/
structure WireText where
  body : Option String
deriving DecidableEq, Repr

/-- Models `value.messages[0]` as read by `de_json`.  The sub-dicts for reaction,
image, sticker and location are modelled as already-shaped objects (the
source forwards them as keyword arguments to the matching constructors);
`none` covers both an absent key and a falsy (empty) sub-dict, which the
`x and C(**x) or None` idiom collapses to `None`. -/
structure WireMessage where
  type : Option String
  id : Option String
  fromUser : Option String
  timestamp : Option String
  text : Option WireText
  reaction : Option Reaction
  image : Option Image
  sticker : Option Sticker
  location : Option Location
deriving Repr

/-- Models `entry[0].changes[0].value`: the dict holding `messages`. -/
structure WireValue where
  messages : Option (List WireMessage)
deriving Repr

/-- One element of the `changes` array. -/
structure WireChange where
  value : Option WireValue
deriving Repr

/-- One element of the `entry` array. -/
structure WireEntry where
  changes : Option (List WireChange)
deriving Repr

/-- The full webhook POST body `{entry: [{changes: [{value: ...}]}]}`. -/
structure Envelope where
  entry : Option (List WireEntry)
deriving Repr

/-- Models `text and text.get("body") or None` (`_files/message.py` line 266):
the `or None` also collapses a present-but-empty body string to `None`. -/
def extractTextBody : Option WireText → Option String
  | none => none
  | some w =>
    match w.body with
    | none => none
    | some b => if b.isEmpty then none else some b

/-- Embeds `Message.de_json` (`_files/message.py` lines 212-272).
`data.get("entry")` on a dict without the key gives `None`, and `None[0]`
raises `TypeError`; `[][0]` raises `IndexError`; likewise for `changes`.
`if not data: return None` handles a missing/falsy `value`, and a missing
or empty `messages` list also returns `None`.  Then the timestamp is
converted (`parseWireTimestamp`), the type resolved (`resolveType`), and
the message is built.  `business_id`, `display_phone_number` and
`phone_number_id` are read from `output_dict` itself (which does not hold
them), so they are always `None`. -/
def de_json (data : Envelope) : Except PyErr (Option Message) :=
  match data.entry with
  | none => Except.error .typeError
  | some [] => Except.error .indexError
  | some (e :: _) =>
    match e.changes with
    | none => Except.error .typeError
    | some [] => Except.error .indexError
    | some (c :: _) =>
      match c.value with
      | none => Except.ok none
      | some v =>
        match v.messages with
        | none => Except.ok none
        | some [] => Except.ok none
        | some (m :: _) =>
          match parseWireTimestamp m.timestamp with
          | .error err => Except.error err
          | .ok time =>
            match resolveType m.type with
            | .error err => Except.error err
            | .ok ty =>
              Except.ok (some
                ⟨none, none, none, m.fromUser, m.id, time,
                 extractTextBody m.text, ty, m.reaction, m.image, m.sticker, m.location⟩)

/-! ## `File.__eq__` (`_files/FileObject.py` lines 23-38) -/

/-- The class attribute `Message._id_attrs` (`_files/message.py` line 34):
a tuple of attribute NAMES.  No instance ever assigns `_id_attrs` (and
`__slots__` precludes it), so `self._id_attrs` always resolves to this
class-level tuple. -/
def Message.idAttrNames : List String := ["id", "from_user", "type", "time"]

/-- Models `File.__eq__` on two objects of the same class: it returns
`self._id_attrs == other._id_attrs`, the comparison of the two (identical)
class-level name tuples, never reading any field value. -/
def fileEq (selfIdAttrs otherIdAttrs : List String) : Bool :=
  selfIdAttrs == otherIdAttrs

/-- Models `m1 == m2` for two `Message` instances: both operands contribute the
same class attribute, so no field of either instance is consulted. -/
def Message.pyEq (_m1 _m2 : Message) : Bool :=
  fileEq Message.idAttrNames Message.idAttrNames

/-! ## `Message.to_dict` and the name-mangled `__bot` slot -/

/-- A Python runtime value as stored in a `Message` attribute or emitted by
`to_dict`. -/
inductive PyVal where
  | pnone
  | pstr (s : String)
  | pint (n : Int)
  | pdt (epochSeconds : Int)
  | ptype (t : MessageTypes)
  | preac (r : Reaction)
  | pimg (i : Image)
  | pstk (s : Sticker)
  | ploc (l : Location)
  | pdict (kvs : List (String × PyVal))

/-- Wrap an optional string Python-style. -/
def optStrPy : Option String → PyVal
  | none => .pnone
  | some s => .pstr s

/-- Wrap an optional int Python-style. -/
def optIntPy : Option Int → PyVal
  | none => .pnone
  | some n => .pint n

/-- The `time` slot value as a Python value. -/
def TimeVal.toPy : TimeVal → PyVal
  | .dt n => .pdt n
  | .raw s => .pstr s
  | .noneT => .pnone

/-- Wrap an optional `Reaction`. -/
def optReacPy : Option Reaction → PyVal
  | none => .pnone
  | some r => .preac r

/-- Wrap an optional `Image`. -/
def optImgPy : Option Image → PyVal
  | none => .pnone
  | some i => .pimg i

/-- Wrap an optional `Sticker`. -/
def optStkPy : Option Sticker → PyVal
  | none => .pnone
  | some s => .pstk s

/-- Wrap an optional `Location`. -/
def optLocPy : Option Location → PyVal
  | none => .pnone
  | some l => .ploc l

/-- Models `Message.__slots__` (`_files/message.py` lines 18-32), verbatim and in
order.  Note the last entry is the literal string `"__bot"`. -/
def Message.slotNames : List String :=
  ["business_id", "display_phone_number", "phone_number_id", "from_user", "id",
   "time", "text", "type", "reaction", "image", "sticker", "location", "__bot"]

/-- The attribute table of a `Message` instance as `__init__` populates it.
Inside the class body, both the slot declaration `"__bot"` and the
assignment `self.__bot = bot` undergo private-name mangling, so the
attribute is stored under the key `"_Message__bot"`.  The stored value (the
`Bot` reference) is opaque and irrelevant here, recorded as a placeholder. -/
def Message.attrTable (m : Message) : List (String × PyVal) :=
  [("id", optStrPy m.id),
   ("business_id", optIntPy m.business_id),
   ("display_phone_number", optStrPy m.display_phone_number),
   ("phone_number_id", optIntPy m.phone_number_id),
   ("from_user", optStrPy m.from_user),
   ("time", TimeVal.toPy m.time),
   ("text", optStrPy m.text),
   ("type", PyVal.ptype m.type),
   ("reaction", optReacPy m.reaction),
   ("image", optImgPy m.image),
   ("sticker", optStkPy m.sticker),
   ("location", optLocPy m.location),
   ("_Message__bot", PyVal.pnone)]

/-- Models `getattr(self, name)`: looks the name up verbatim in the attribute
table; a missing attribute raises `AttributeError`.  Runtime `getattr`
performs NO name mangling. -/
def pyGetattr (tbl : List (String × PyVal)) (name : String) : Except PyErr PyVal :=
  match tbl.lookup name with
  | some v => Except.ok v
  | none => Except.error .attributeError

/-- The `hasattr(attr, "to_dict")` conversion inside `File.to_dict`: payload
objects are replaced by their dict form; plain values pass through. -/
def pyToDictVal : PyVal → PyVal
  | .preac r => .pdict ((Reaction.to_dict r).map (fun kv => (kv.1, PyVal.pstr kv.2)))
  | .pimg i => .pdict ((Image.to_dict i).map (fun kv => (kv.1, PyVal.pstr kv.2)))
  | .pstk s => .pdict ((Sticker.to_dict s).map (fun kv => (kv.1, PyVal.pstr kv.2)))
  | .ploc l => .pdict ((Location.to_dict l).map (fun kv => (kv.1, PyVal.pstr kv.2)))
  | v => v

/-- The loop of `File.to_dict` (`_files/FileObject.py` lines 40-50) over a
slot-name list: `getattr` each slot, convert nested payload objects, build
the dict.  An `AttributeError` from `getattr` propagates. -/
def toDictLoop (tbl : List (String × PyVal)) : List String → Except PyErr (List (String × PyVal))
  | [] => Except.ok []
  | s :: rest =>
    match pyGetattr tbl s with
    | .error e => Except.error e
    | .ok v =>
      match toDictLoop tbl rest with
      | .error e => Except.error e
      | .ok kvs => Except.ok ((s, pyToDictVal v) :: kvs)

/-- Models `Message.to_dict()`: `File.to_dict` run over `Message.__slots__` against
the instance's attribute table. -/
def Message.to_dict (m : Message) : Except PyErr (List (String × PyVal)) :=
  toDictLoop (Message.attrTable m) Message.slotNames

/-! ## `_validators/messages.py`: pydantic models -/

/-- The single value of `str(uuid.uuid4())` in the `ButtonContents` class
body (`_validators/messages.py` line 64).  The default expression is
evaluated ONCE, when the class body executes at import time, so every
instance constructed without an explicit id shares this one string.  The
concrete digits are arbitrary; only their sharedness matters. -/
def buttonContentsDefaultId : String := "0f2ce1b4-9a35-4d12-8c7e-5b6a41d92e08"

/-- A validated `ButtonContents` instance: `id: Optional[str]` (defaulted),
`title: constr(max_length=20, min_length=1)`. -/
structure ButtonContents where
  id : Option String
  title : String
deriving DecidableEq, Repr

/-- Constructing `ButtonContents(id=..., title=...)`: the title length must
lie in `[1, 20]` or pydantic raises a `ValidationError`; an absent id is
filled with the shared class-level default.  (`idArg = none` models the
`id` key being absent from the keyword arguments.) -/
def mkButtonContents (idArg : Option String) (title : String) : Except PyErr ButtonContents :=
  if 1 ≤ title.length ∧ title.length ≤ 20 then
    Except.ok ⟨some (idArg.getD buttonContentsDefaultId), title⟩
  else
    Except.error .validationError

/-- A validated `TextMessage`: `text: str`, `message_id: Optional[str]`,
`recipient_number: constr(max_length=20, min_length=8)`. -/
structure TextMessage where
  text : String
  message_id : Option String
  recipient_number : String
deriving DecidableEq, Repr

/-- Constructing `TextMessage(...)`: the recipient number length must lie
in `[8, 20]`. -/
def mkTextMessage (text : String) (message_id : Option String) (recipient_number : String) :
    Except PyErr TextMessage :=
  if 8 ≤ recipient_number.length ∧ recipient_number.length ≤ 20 then
    Except.ok ⟨text, message_id, recipient_number⟩
  else
    Except.error .validationError

/-- A validated `ButtonMessage`: `text: str`,
`recipient_number: constr(max_length=12, min_length=8)`,
`buttons: List[ButtonContents]`. -/
structure ButtonMessage where
  text : String
  recipient_number : String
  buttons : List ButtonContents
deriving DecidableEq, Repr

/-- Constructing `ButtonMessage(...)`: the recipient number length must lie
in `[8, 12]`. -/
def mkButtonMessage (text recipient_number : String) (buttons : List ButtonContents) :
    Except PyErr ButtonMessage :=
  if 8 ≤ recipient_number.length ∧ recipient_number.length ≤ 12 then
    Except.ok ⟨text, recipient_number, buttons⟩
  else
    Except.error .validationError

/-- One element of the `buttons` argument of `Bot.send_text_with_buttons`:
a dict with a required `'title'` key and an optional `'id'` key. -/
structure ButtonDict where
  id : Option String
  title : String
deriving DecidableEq, Repr

/-- The list comprehension `[ButtonContents(**b) for b in buttons]`
(`bot.py` line 178): elements are validated left to right and the first
`ValidationError` propagates. -/
def buildButtonContents : List ButtonDict → Except PyErr (List ButtonContents)
  | [] => Except.ok []
  | b :: rest =>
    match mkButtonContents b.id b.title with
    | .error e => Except.error e
    | .ok bc =>
      match buildButtonContents rest with
      | .error e => Except.error e
      | .ok bcs => Except.ok (bc :: bcs)

/-- Decidable per-button validity: the title length lies in `[1, 20]`. -/
def bdOk (b : ButtonDict) : Bool :=
  decide (1 ≤ b.title.length) && decide (b.title.length ≤ 20)

/-- The `ButtonContents` a valid `ButtonDict` turns into. -/
def bdToBC (b : ButtonDict) : ButtonContents :=
  ⟨some (b.id.getD buttonContentsDefaultId), b.title⟩

/-! ## `_formaters/message_formatter.py` -/

/-- A value inside an outbound JSON body: a string, a bool, a nested dict,
or a raw Python `ButtonContents` object placed into the body verbatim. -/
inductive Fmt where
  | fs (v : String)
  | fb (v : Bool)
  | fd (kvs : List (String × Fmt))
  | fbc (b : ButtonContents)

/-- Models `MessageFormatter.format_text_message` (lines 44-59): builds the body,
then `if message_id: body["context"] = {"message_id": message_id}`.
Python truthiness makes an empty-string id behave like an absent one. -/
def format_text_message (body toNum : String) (preview_url : Bool) (message_id : Option String) :
    List (String × Fmt) :=
  let base := [("messaging_product", Fmt.fs "whatsapp"),
               ("recipient_type", Fmt.fs "individual"),
               ("to", Fmt.fs toNum),
               ("type", Fmt.fs "text"),
               ("text", Fmt.fd [("preview_url", Fmt.fb preview_url), ("body", Fmt.fs body)])]
  match message_id with
  | some s =>
    if s.isEmpty then base
    else base ++ [("context", Fmt.fd [("message_id", Fmt.fs s)])]
  | none => base

/-- The `buttons` argument of `format_button_message` as it can actually be
passed: a single `ButtonContents` instance, or a list of them (which is
what `Bot.send_text_with_buttons` passes). -/
inductive ButtonsArg where
  | one (b : ButtonContents)
  | many (bs : List ButtonContents)

/-- Models `MessageFormatter.format_button_message` (lines 61-86):
`if not isinstance(buttons, ButtonContents): raise TypeError(...)` — a LIST
of `ButtonContents` is not an instance, so it is rejected.  Then the body
is built, and the `return message` statement sits INSIDE the
`if message_id:` block: with a falsy `message_id` the function falls off
its end and returns Python `None` (modelled as `Except.ok none`). -/
def format_button_message (toNum text : String) (buttons : ButtonsArg) (message_id : Option String) :
    Except PyErr (Option (List (String × Fmt))) :=
  match buttons with
  | .many _ => Except.error .typeError
  | .one bc =>
    let message := [("messaging_product", Fmt.fs "whatsapp"),
                    ("recipient_type", Fmt.fs "individual"),
                    ("to", Fmt.fs toNum),
                    ("type", Fmt.fs "interactive"),
                    ("interactive", Fmt.fd
                      [("type", Fmt.fs "button"),
                       ("body", Fmt.fd [("text", Fmt.fs text)]),
                       ("action", Fmt.fd [("buttons", Fmt.fbc bc)])])]
    match message_id with
    | some s =>
      if s.isEmpty then Except.ok none
      else Except.ok (some (message ++ [("context", Fmt.fd [("message_id", Fmt.fs s)])]))
    | none => Except.ok none

/-! ## The `bot.py` send pipeline -/

/-- An instrumented run of a `Bot` send method: whether the formatter was
reached, whether the network send was reached, and the final outcome
(`Except.ok` holds the payload handed to the transport, which for the
button path can be Python `None`). -/
structure Trace where
  formatterCalled : Bool
  sendCalled : Bool
  outcome : Except PyErr (Option (List (String × Fmt)))

/-- Models `Bot.send_text` (`bot.py` lines 117-148): validate via `TextMessage`,
then format, then send.  A `ValidationError` propagates before the
formatter or the network is touched. -/
def send_text (text recipient_number : String) (message_id : Option String) (preview_url : Bool) :
    Trace :=
  match mkTextMessage text message_id recipient_number with
  | .error e => ⟨false, false, Except.error e⟩
  | .ok tm =>
    ⟨true, true, Except.ok (some (format_text_message tm.text tm.recipient_number preview_url message_id))⟩

/-- Models `Bot.send_text_with_buttons` (`bot.py` lines 150-191): build the
`ButtonContents` list, validate the `ButtonMessage`, then call
`format_button_message` with the LIST of buttons, then send.  Any raise at
a stage stops the pipeline there. -/
def send_text_with_buttons (text : String) (buttons : List ButtonDict)
    (recipient_number : String) (message_id : Option String) : Trace :=
  match buildButtonContents buttons with
  | .error e => ⟨false, false, Except.error e⟩
  | .ok bcs =>
    match mkButtonMessage text recipient_number bcs with
    | .error e => ⟨false, false, Except.error e⟩
    | .ok bm =>
      match format_button_message recipient_number bm.text (.many bm.buttons) message_id with
      | .error e => ⟨true, false, Except.error e⟩
      | .ok body => ⟨true, true, Except.ok body⟩

/-! ## `_files/contact.py`: the `Contact` object -/

/-- A validated `Phone` (`contact.py`): slots `phone`, `wa_id`, `type`;
`__init__(self, phone, wa_id=None, type=None)`. -/
structure Phone where
  phone : String
  wa_id : Option String
  type : Option String
deriving DecidableEq, Repr

/-- A contact `Name` (`contact.py`): slots `formatted_name`, `first_name`,
`last_name`, `middle_name`, `suffix`, `prefix` (the last field is named
`prefixF` here because its source name is not usable in this file). -/
structure Name where
  formatted_name : String
  first_name : String
  last_name : Option String
  middle_name : Option String
  suffix : Option String
  prefixF : Option String
deriving DecidableEq, Repr

/-- A contact `Address` (`contact.py`). -/
structure Address where
  street : Option String
  city : Option String
  state : Option String
  zip : Option String
  country : Option String
  country_code : Option String
  type : Option String
deriving DecidableEq, Repr

/-- A contact `Email` (`contact.py`). -/
structure Email where
  email : Option String
  type : Option String
deriving DecidableEq, Repr

/-- A contact `Org` (`contact.py`). -/
structure Org where
  company : Option String
  department : Option String
  title : Option String
deriving DecidableEq, Repr

/-- A contact `URL` (`contact.py`). -/
structure URL where
  url : String
  type : Option String
deriving DecidableEq, Repr

/-- A constructed `Contact` (`contact.py` lines 269-312): after
`__init__`, `phones` holds the normalized list. -/
structure Contact where
  name : Name
  addresses : Option (List Address)
  birthday : Option String
  emails : Option (List Email)
  org : Option Org
  phones : List Phone
  urls : Option (List URL)
deriving DecidableEq, Repr

/-- The `name` argument of `Contact.__init__`: a plain string, a `Name`
instance, or anything else (rejected with `TypeError`). -/
inductive NameArg where
  | strN (s : String)
  | nameN (n : Name)
  | otherN
deriving DecidableEq, Repr

/-- One element of the `phones` list argument: a bare string, a `Phone`
instance, or anything else (rejected with `TypeError`). -/
inductive PhoneArg where
  | strA (s : String)
  | phoneA (p : Phone)
  | otherA
deriving DecidableEq, Repr

/-- The `phones` argument itself: `None` (the default) or a list.  Any
non-list value takes the same `ValueError` branch as `None`. -/
inductive PhonesParam where
  | pyNone
  | pyList (xs : List PhoneArg)
deriving DecidableEq, Repr

/-- Models `Contact.__init__` name handling (lines 283-290): a string becomes
`Name(formatted_name=name, first_name=name)` (whose constructor defaults
fill `middle_name`, `suffix` and the prefix slot with `""` and leaves
`last_name` as `None`); a `Name` passes through; anything else raises
`TypeError`. -/
def resolveContactName : NameArg → Except PyErr Name
  | .strN s => Except.ok ⟨s, s, none, some "", some "", some ""⟩
  | .nameN n => Except.ok n
  | .otherN => Except.error .typeError

/-- The element-wise normalization loop of `Contact.__init__` (lines
292-299): a bare string becomes `Phone(phone=s)`; a `Phone` is kept; any
other element raises `TypeError` at the first offender.  There is NO
check that the list is non-empty. -/
def normalizePhonesList : List PhoneArg → Except PyErr (List Phone)
  | [] => Except.ok []
  | .strA s :: rest =>
    match normalizePhonesList rest with
    | .error e => Except.error e
    | .ok r => Except.ok (⟨s, none, none⟩ :: r)
  | .phoneA p :: rest =>
    match normalizePhonesList rest with
    | .error e => Except.error e
    | .ok r => Except.ok (p :: r)
  | .otherA :: _ => Except.error .typeError

/-- The `phones` branch of `Contact.__init__` (lines 292-304):
`isinstance(phones, list)` → normalize element-wise; otherwise (`None` or
any non-list) raise `ValueError`. -/
def normalizePhones : PhonesParam → Except PyErr (List Phone)
  | .pyNone => Except.error .valueError
  | .pyList xs => normalizePhonesList xs

/-- Models `Contact(...)` (lines 269-312): resolve the name, normalize the
phones, assign the remaining optional fields verbatim. -/
def mkContact (name : NameArg) (addresses : Option (List Address)) (birthday : Option String)
    (emails : Option (List Email)) (org : Option Org) (phones : PhonesParam)
    (urls : Option (List URL)) : Except PyErr Contact :=
  match resolveContactName name with
  | .error e => Except.error e
  | .ok nm =>
    match normalizePhones phones with
    | .error e => Except.error e
    | .ok phs => Except.ok ⟨nm, addresses, birthday, emails, org, phs, urls⟩

/-- Whether a `PhoneArg` survives normalization. -/
def phoneArgGood : PhoneArg → Bool
  | .otherA => false
  | _ => true

/-- What a surviving `PhoneArg` normalizes to. -/
def phoneArgNorm : PhoneArg → Phone
  | .strA s => ⟨s, none, none⟩
  | .phoneA p => p
  | .otherA => ⟨"", none, none⟩

/-! ## Sample values used by the concrete theorems -/

/-- A wire message record with a given `type` and `timestamp`, the other
keys fixed. -/
def wmsg (ty : Option String) (ts : Option String) : WireMessage :=
  ⟨ty, some "wamid.1", some "2348012345678", ts, none, none, none, none, none⟩

/-- A well-formed envelope around a single message record. -/
def envOf (m : WireMessage) : Envelope :=
  ⟨some [⟨some [⟨some ⟨some [m]⟩⟩]⟩]⟩

/-- A sample `ButtonContents` instance. -/
def sampleBC : ButtonContents := ⟨some "btn-1", "Yes"⟩

/-- A sample message (no payload objects set). -/
def msgA : Message :=
  ⟨none, none, none, some "2348012345678", some "wamid.A", .noneT, none, .TEXT,
   none, none, none, none⟩

/-- A second sample message differing from `msgA` in every identity field. -/
def msgB : Message :=
  ⟨none, none, none, some "2349098765432", some "wamid.B", .raw "169", none, .IMAGE,
   none, none, none, none⟩

/-! ## Helper lemmas -/

/-- Closed form of the button-list comprehension: it succeeds exactly when
every title length lies in `[1, 20]`, producing the element-wise
`ButtonContents`, and otherwise raises the pydantic validation error. -/
theorem buildButtonContents_eq (l : List ButtonDict) :
    buildButtonContents l =
      if l.all bdOk then Except.ok (l.map bdToBC) else Except.error .validationError := by
  induction l with
  | nil => simp [buildButtonContents]
  | cons b rest ih =>
    by_cases hb : 1 ≤ b.title.length ∧ b.title.length ≤ 20
    · have hbok : bdOk b = true := by
        simp only [bdOk, Bool.and_eq_true, decide_eq_true_eq]
        exact hb
      simp only [buildButtonContents, mkButtonContents, if_pos hb, ih, List.all_cons, hbok,
                 Bool.true_and, List.map_cons]
      by_cases hall : rest.all bdOk = true
      · simp [hall, bdToBC]
      · simp only [Bool.not_eq_true] at hall
        simp [hall]
    · have hbok : bdOk b = false := by
        simp only [bdOk, Bool.and_eq_false_iff, decide_eq_false_iff_not]
        omega
      simp only [buildButtonContents, mkButtonContents, if_neg hb, List.all_cons, hbok,
                 Bool.false_and]
      simp

/-- The boolean per-list validity test agrees with the propositional one. -/
theorem all_bdOk_iff (l : List ButtonDict) :
    l.all bdOk = true ↔ ∀ b ∈ l, 1 ≤ b.title.length ∧ b.title.length ≤ 20 := by
  simp [List.all_eq_true, bdOk]

/-- Closed form of `Bot.send_text_with_buttons`: buttons validated first,
then the recipient number; when both pass, `format_button_message` is
reached and (being handed a list) raises `TypeError` before any send. -/
theorem stwb_closed (text r : String) (mid : Option String) (btns : List ButtonDict) :
    send_text_with_buttons text btns r mid =
      if btns.all bdOk then
        (if 8 ≤ r.length ∧ r.length ≤ 12 then
          ⟨true, false, Except.error .typeError⟩
        else ⟨false, false, Except.error .validationError⟩)
      else ⟨false, false, Except.error .validationError⟩ := by
  unfold send_text_with_buttons
  rw [buildButtonContents_eq]
  by_cases hall : btns.all bdOk = true
  · simp only [hall, if_true]
    unfold mkButtonMessage
    by_cases hr : 8 ≤ r.length ∧ r.length ≤ 12
    · simp [hr, format_button_message]
    · simp [hr]
  · simp only [Bool.not_eq_true] at hall
    simp [hall]

/-- Closed form of `Bot.send_text`: the `TextMessage` validation gates the
formatter and the send. -/
theorem sendText_closed (text r : String) (mid : Option String) (pv : Bool) :
    send_text text r mid pv =
      if 8 ≤ r.length ∧ r.length ≤ 20 then
        ⟨true, true, Except.ok (some (format_text_message text r pv mid))⟩
      else ⟨false, false, Except.error .validationError⟩ := by
  unfold send_text mkTextMessage
  by_cases h : 8 ≤ r.length ∧ r.length ≤ 20 <;> simp [h]

/-- A `PhoneArg` survives normalization exactly when it is not the
ill-typed element. -/
theorem phoneArgGood_iff (a : PhoneArg) : phoneArgGood a = true ↔ a ≠ PhoneArg.otherA := by
  cases a <;> simp [phoneArgGood]

/-- The boolean phones validity test agrees with the propositional one. -/
theorem all_phoneArgGood_iff (xs : List PhoneArg) :
    xs.all phoneArgGood = true ↔ ∀ a ∈ xs, a ≠ PhoneArg.otherA := by
  simp [List.all_eq_true, phoneArgGood_iff]

/-- Closed form of the element-wise phone normalization loop. -/
theorem normalizePhonesList_eq (xs : List PhoneArg) :
    normalizePhonesList xs =
      if xs.all phoneArgGood then Except.ok (xs.map phoneArgNorm)
      else Except.error .typeError := by
  induction xs with
  | nil => simp [normalizePhonesList]
  | cons a rest ih =>
    cases a with
    | strA s =>
      simp only [normalizePhonesList, ih, List.all_cons, phoneArgGood, Bool.true_and,
                 List.map_cons, phoneArgNorm]
      by_cases hall : rest.all phoneArgGood = true
      · simp [hall]
      · simp only [Bool.not_eq_true] at hall
        simp [hall]
    | phoneA p =>
      simp only [normalizePhonesList, ih, List.all_cons, phoneArgGood, Bool.true_and,
                 List.map_cons, phoneArgNorm]
      by_cases hall : rest.all phoneArgGood = true
      · simp [hall]
      · simp only [Bool.not_eq_true] at hall
        simp [hall]
    | otherA =>
      simp [normalizePhonesList, List.all_cons, phoneArgGood]

/-! ## Claim theorems -/

/-- C1: the claim fails on the code.  The inbound decoder's type test is
against the enum member NAMES (`IMAGE`, ...), which no lowercase wire value
matches, and the fallback attribute `MessageTypes.unknown` does not exist
(the member is `UNKNOWN`), so `de_json` raises `AttributeError` for every
recognized wire `type` string, for every unrecognized one and for an
absent one alike — it neither returns the matching member nor the
`unknown` member, and it does raise on account of the type field.  Only a
string equal to an uppercase member name (never sent on the wire) decodes. -/
theorem deJson_type_resolution_always_raises :
    de_json (envOf (wmsg (some "image") (some "1690000000"))) = Except.error .attributeError
    ∧ de_json (envOf (wmsg (some "audio") (some "1690000000"))) = Except.error .attributeError
    ∧ de_json (envOf (wmsg (some "zzz") (some "1690000000"))) = Except.error .attributeError
    ∧ de_json (envOf (wmsg none (some "1690000000"))) = Except.error .attributeError
    ∧ de_json (envOf (wmsg (some "TEXT") (some "1690000000")))
        = Except.ok (some ⟨none, none, none, some "2348012345678", some "wamid.1",
            TimeVal.dt 1690000000, none, MessageTypes.TEXT, none, none, none, none⟩)
    ∧ MessageTypes.IMAGE.value = "image" :=
  ⟨rfl, rfl, rfl, rfl, rfl, rfl⟩

/-- C2: the claim fails on the code.  The text formatter does omit the
`context` key entirely when no reply id is supplied and attaches
`context: {message_id: id}` when one is; but `format_button_message` has
its `return message` statement inside the `if message_id:` block, so with
no reply id it returns Python `None` instead of the body — there is no
returned body at all, with or without a `context` key. -/
theorem formatButtonMessage_no_reply_returns_none :
    ((format_text_message "hi" "2348000000000" false none).lookup "context" = none)
    ∧ (format_text_message "hi" "2348000000000" false none
        = [("messaging_product", Fmt.fs "whatsapp"), ("recipient_type", Fmt.fs "individual"),
           ("to", Fmt.fs "2348000000000"), ("type", Fmt.fs "text"),
           ("text", Fmt.fd [("preview_url", Fmt.fb false), ("body", Fmt.fs "hi")])])
    ∧ ((format_text_message "hi" "2348000000000" false (some "wamid.9")).lookup "context"
        = some (Fmt.fd [("message_id", Fmt.fs "wamid.9")]))
    ∧ (format_button_message "2348000000000" "pick" (.one sampleBC) (some "wamid.9")
        = Except.ok (some
            [("messaging_product", Fmt.fs "whatsapp"), ("recipient_type", Fmt.fs "individual"),
             ("to", Fmt.fs "2348000000000"), ("type", Fmt.fs "interactive"),
             ("interactive", Fmt.fd
               [("type", Fmt.fs "button"), ("body", Fmt.fd [("text", Fmt.fs "pick")]),
                ("action", Fmt.fd [("buttons", Fmt.fbc sampleBC)])]),
             ("context", Fmt.fd [("message_id", Fmt.fs "wamid.9")])]))
    ∧ (format_button_message "2348000000000" "pick" (.one sampleBC) none = Except.ok none) :=
  ⟨rfl, rfl, rfl, rfl, rfl⟩

/-- C3: the claim fails on the code.  `File.__eq__` compares the
class-level `_id_attrs` tuples of attribute NAMES, which are identical for
any two `Message` instances, so every pair of messages compares equal —
including `msgA` and `msgB`, which differ in all four identity fields. -/
theorem message_eq_ignores_field_values :
    (∀ m1 m2 : Message, Message.pyEq m1 m2 = true)
    ∧ Message.pyEq msgA msgB = true
    ∧ msgA.id ≠ msgB.id
    ∧ msgA.from_user ≠ msgB.from_user
    ∧ msgA.type ≠ msgB.type
    ∧ msgA.time ≠ msgB.time :=
  ⟨fun _ _ => rfl, rfl, by decide, by decide, by decide, by decide⟩

/-- C4 counterexample: the round-trip fails for `Image`.  `to_dict` emits
the slot name `id`, but `Image.__init__` expects the keyword `_id`, so
reconstructing from the mapping raises `TypeError` instead of succeeding. -/
theorem image_roundtrip_raises :
    Image.fromKwargs (Image.to_dict ⟨"cap", "image/png", "MEDIA1", "HASH1"⟩)
      = Except.error PyErr.typeError := rfl

/-- C4 amended: `to_dict` followed by reconstruction from the mapping
succeeds and reproduces the object exactly (hence also under the declared
identity attributes) for `Sticker`, `Reaction` and `Location`, whose
constructor keywords coincide with their slot names; for `Image` the
reconstruction always raises `TypeError` (`id` versus `_id`). -/
theorem payload_roundtrip_by_kwargs :
    (∀ x : Sticker, Sticker.fromKwargs (Sticker.to_dict x) = Except.ok x)
    ∧ (∀ x : Reaction, Reaction.fromKwargs (Reaction.to_dict x) = Except.ok x)
    ∧ (∀ x : Location, Location.fromKwargs (Location.to_dict x) = Except.ok x)
    ∧ (∀ x : Image, Image.fromKwargs (Image.to_dict x) = Except.error PyErr.typeError) := by
  refine ⟨fun x => ?_, fun x => ?_, fun x => ?_, fun x => ?_⟩ <;> cases x <;> rfl

/-- C5 counterexample: constructing a `Contact` with an EMPTY phone list
succeeds (the normalization loop simply runs zero times; there is no
non-emptiness check), contradicting the claim that it is rejected. -/
theorem contact_empty_phones_accepted :
    mkContact (.strN "Ada") none none none none (.pyList []) none
      = Except.ok ⟨⟨"Ada", "Ada", none, some "", some "", some ""⟩,
                   none, none, none, none, [], none⟩ := rfl

/-- C5 amended: `Contact` construction fails with `ValueError` when
`phones` is not a list (e.g. the `None` default), and with `TypeError`
when some element is neither a string nor a `Phone`; otherwise it succeeds
— even for the empty list — with bare strings normalized into `Phone`
objects.  Non-emptiness is NOT enforced. -/
theorem contact_phones_normalization (xs : List PhoneArg) :
    (normalizePhones .pyNone = Except.error PyErr.valueError)
    ∧ (exOk (normalizePhones (.pyList xs)) = true ↔ ∀ a ∈ xs, a ≠ PhoneArg.otherA)
    ∧ ((∀ a ∈ xs, a ≠ PhoneArg.otherA) →
        normalizePhones (.pyList xs) = Except.ok (xs.map phoneArgNorm)) := by
  have hlist : normalizePhones (.pyList xs) = normalizePhonesList xs := rfl
  refine ⟨rfl, ?_, ?_⟩
  · rw [hlist, normalizePhonesList_eq]
    by_cases h : xs.all phoneArgGood = true
    · simp only [h, if_true, exOk]
      simpa using (all_phoneArgGood_iff xs).mp h
    · have h' : xs.all phoneArgGood = false := by
        cases hb : xs.all phoneArgGood with
        | true => exact absurd hb h
        | false => rfl
      simp only [h', Bool.false_eq_true, if_false, exOk, false_iff]
      intro hall
      exact h ((all_phoneArgGood_iff xs).mpr hall)
  · intro hall
    rw [hlist, normalizePhonesList_eq, if_pos ((all_phoneArgGood_iff xs).mpr hall)]

/-- C5 witness: a singleton list of a bare phone string satisfies the
hypothesis and normalizes into a `Phone`. -/
theorem contact_phones_normalization_witness :
    (∀ a ∈ [PhoneArg.strA "2348012345678"], a ≠ PhoneArg.otherA)
    ∧ normalizePhones (.pyList [PhoneArg.strA "2348012345678"])
        = Except.ok [⟨"2348012345678", none, none⟩] :=
  ⟨by decide, (contact_phones_normalization [PhoneArg.strA "2348012345678"]).2.2 (by decide)⟩

/-- C6: the request validators gate the pipelines.  The text path reaches
its formatter exactly when the recipient number length lies in `[8, 20]`;
the button path exactly when every button title length lies in `[1, 20]`
and the recipient number length lies in `[8, 12]`; and any violation
raises the pydantic validation error with the formatter never invoked and
no network attempt made. -/
theorem validator_bounds_gate (text r : String) (mid : Option String) (pv : Bool)
    (btns : List ButtonDict) :
    ((send_text text r mid pv).formatterCalled = true ↔ (8 ≤ r.length ∧ r.length ≤ 20))
    ∧ (¬(8 ≤ r.length ∧ r.length ≤ 20) →
        (send_text text r mid pv).outcome = Except.error PyErr.validationError
        ∧ (send_text text r mid pv).sendCalled = false)
    ∧ ((send_text_with_buttons text btns r mid).formatterCalled = true ↔
        ((∀ b ∈ btns, 1 ≤ b.title.length ∧ b.title.length ≤ 20)
          ∧ (8 ≤ r.length ∧ r.length ≤ 12)))
    ∧ (¬((∀ b ∈ btns, 1 ≤ b.title.length ∧ b.title.length ≤ 20)
          ∧ (8 ≤ r.length ∧ r.length ≤ 12)) →
        (send_text_with_buttons text btns r mid).outcome = Except.error PyErr.validationError
        ∧ (send_text_with_buttons text btns r mid).formatterCalled = false
        ∧ (send_text_with_buttons text btns r mid).sendCalled = false) := by
  refine ⟨?_, ?_, ?_, ?_⟩
  · by_cases h : 8 ≤ r.length ∧ r.length ≤ 20 <;> simp [sendText_closed, h]
  · intro h
    simp [sendText_closed, h]
  · by_cases hb : ∀ b ∈ btns, 1 ≤ b.title.length ∧ b.title.length ≤ 20
    · have hall : btns.all bdOk = true := (all_bdOk_iff btns).mpr hb
      by_cases hr : 8 ≤ r.length ∧ r.length ≤ 12
      · simp only [stwb_closed, hall, if_true, if_pos hr, true_iff]
        exact ⟨hb, hr⟩
      · simp [stwb_closed, hall, hr]
    · have hall : btns.all bdOk = false := by
        cases hallb : btns.all bdOk with
        | true => exact absurd ((all_bdOk_iff btns).mp hallb) hb
        | false => rfl
      simp [stwb_closed, hall, hb]
  · intro h
    by_cases hb : ∀ b ∈ btns, 1 ≤ b.title.length ∧ b.title.length ≤ 20
    · have hr : ¬(8 ≤ r.length ∧ r.length ≤ 12) := fun hr => h ⟨hb, hr⟩
      have hall : btns.all bdOk = true := (all_bdOk_iff btns).mpr hb
      simp [stwb_closed, hall, hr]
    · have hall : btns.all bdOk = false := by
        cases hallb : btns.all bdOk with
        | true => exact absurd ((all_bdOk_iff btns).mp hallb) hb
        | false => rfl
      simp [stwb_closed, hall]

/-- C6 witness: a button title of length 21 violates the bounds, and the
pipeline rejects it with a validation error before the formatter runs. -/
theorem validator_bounds_gate_witness :
    ¬((∀ b ∈ [ButtonDict.mk none "aaaaaaaaaaaaaaaaaaaaa"],
          1 ≤ b.title.length ∧ b.title.length ≤ 20)
        ∧ (8 ≤ ("234801234" : String).length ∧ ("234801234" : String).length ≤ 12))
    ∧ (send_text_with_buttons "pick" [ButtonDict.mk none "aaaaaaaaaaaaaaaaaaaaa"]
          "234801234" none).outcome = Except.error PyErr.validationError
    ∧ (send_text_with_buttons "pick" [ButtonDict.mk none "aaaaaaaaaaaaaaaaaaaaa"]
          "234801234" none).formatterCalled = false :=
  ⟨by decide,
   ((validator_bounds_gate "pick" "234801234" none false
      [ButtonDict.mk none "aaaaaaaaaaaaaaaaaaaaa"]).2.2.2 (by decide)).1,
   ((validator_bounds_gate "pick" "234801234" none false
      [ButtonDict.mk none "aaaaaaaaaaaaaaaaaaaaa"]).2.2.2 (by decide)).2.1⟩

/-- C7 counterexample: with the `timestamp` field ABSENT, `int(None)`
raises `TypeError`, which the `except ValueError` clause does not catch, so
`de_json` fails on account of the timestamp (the type failure mode would be
`AttributeError`, so this `TypeError` comes from the timestamp code). -/
theorem deJson_absent_timestamp_raises :
    de_json (envOf (wmsg (some "TEXT") none)) = Except.error PyErr.typeError := rfl

/-- C7 amended: for every STRING timestamp on which the integer conversion
fails, the `ValueError` is caught and the raw string is kept unmodified on
the resulting `Message`; but an absent timestamp (`None`) raises an
uncaught `TypeError`. -/
theorem timestamp_conversion_failure_handling :
    (∀ s : String, pyInt? s = none → parseWireTimestamp (some s) = Except.ok (TimeVal.raw s))
    ∧ (parseWireTimestamp none = Except.error PyErr.typeError)
    ∧ (de_json (envOf (wmsg (some "TEXT") (some "not-a-number")))
        = Except.ok (some ⟨none, none, none, some "2348012345678", some "wamid.1",
            TimeVal.raw "not-a-number", none, MessageTypes.TEXT, none, none, none, none⟩)) := by
  refine ⟨?_, rfl, rfl⟩
  intro s h
  simp [parseWireTimestamp, h]

/-- C7 witness: the hypothesis holds at the non-numeric string
`"not-a-number"`, and the raw string is kept. -/
theorem timestamp_conversion_failure_handling_witness :
    pyInt? "not-a-number" = none
    ∧ parseWireTimestamp (some "not-a-number") = Except.ok (TimeVal.raw "not-a-number") :=
  ⟨rfl, timestamp_conversion_failure_handling.1 "not-a-number" rfl⟩

/-- C8: the claim fails on the code.  `Message.__slots__` lists the
private name `"__bot"`, which the class body stores under its MANGLED name
`_Message__bot`; `File.to_dict` then calls `getattr(self, "__bot")`, which
performs no mangling and raises `AttributeError`, so `Message.to_dict`
always raises instead of returning a mapping. -/
theorem message_toDict_raises :
    Message.to_dict msgA = Except.error PyErr.attributeError
    ∧ pyGetattr (Message.attrTable msgA) "__bot" = Except.error PyErr.attributeError
    ∧ (Message.attrTable msgA).lookup "_Message__bot" = some PyVal.pnone
    ∧ Message.slotNames.contains "__bot" = true :=
  ⟨rfl, rfl, rfl, rfl⟩

/-- C9: the claim fails on the code.  The default `id` expression
`str(uuid.uuid4())` is evaluated once at class-definition time, so two
buttons constructed without a supplied id receive the SAME generated id,
not distinct ones — including two buttons built in one
`send_text_with_buttons` call. -/
theorem buttonContents_default_id_shared :
    buildButtonContents [⟨none, "Yes"⟩, ⟨none, "No"⟩]
      = Except.ok [⟨some buttonContentsDefaultId, "Yes"⟩,
                   ⟨some buttonContentsDefaultId, "No"⟩]
    ∧ mkButtonContents none "Yes" = Except.ok ⟨some buttonContentsDefaultId, "Yes"⟩
    ∧ mkButtonContents none "No" = Except.ok ⟨some buttonContentsDefaultId, "No"⟩ :=
  ⟨rfl, rfl, rfl⟩

/-- C10: on every input satisfying the documented contract (all titles of
length 1-20, recipient number of length 8-12), `Bot.send_text_with_buttons`
passes the LIST of `ButtonContents` to `format_button_message`, whose
`isinstance` check rejects any non-instance, so the call raises `TypeError`
at the formatter and never reaches the network send. -/
theorem button_send_always_type_errors (text r : String) (mid : Option String)
    (btns : List ButtonDict)
    (hr : 8 ≤ r.length ∧ r.length ≤ 12)
    (hb : ∀ b ∈ btns, 1 ≤ b.title.length ∧ b.title.length ≤ 20) :
    (send_text_with_buttons text btns r mid).outcome = Except.error PyErr.typeError
    ∧ (send_text_with_buttons text btns r mid).formatterCalled = true
    ∧ (send_text_with_buttons text btns r mid).sendCalled = false := by
  have hall : btns.all bdOk = true := (all_bdOk_iff btns).mpr hb
  simp [stwb_closed, hall, hr]

/-- C10 witness: a fully valid documented input still ends in `TypeError`
with no send. -/
theorem button_send_always_type_errors_witness :
    (8 ≤ ("234801234" : String).length ∧ ("234801234" : String).length ≤ 12)
    ∧ (∀ b ∈ [ButtonDict.mk none "Yes"], 1 ≤ b.title.length ∧ b.title.length ≤ 20)
    ∧ (send_text_with_buttons "pick" [ButtonDict.mk none "Yes"] "234801234" none).outcome
        = Except.error PyErr.typeError :=
  ⟨by decide, by decide,
   (button_send_always_type_errors "pick" "234801234" none [ButtonDict.mk none "Yes"]
      (by decide) (by decide)).1⟩
